import Mathlib

/-!
Verification development for the FinalProject_WeatherApp repository.

The scraper (`scrape_weather.py`), the storage layer (`db_operations.py`,
`dbcm.py`) and their collaborators are embedded shallowly: Python dicts
become association lists in insertion order, the SQLite table becomes a list
of rows in rowid order, Python `float` values become exact decimal rationals
(no claim below performs arithmetic on temperatures, so binary rounding is
irrelevant), and a `try/except` block becomes an `Except`-valued body
together with a total catching wrapper.
-/

namespace WeatherApp

/-! ### Python primitives used by the scraper -/

/-- Characters accepted as decimal digits. -/
def isPyDigit (c : Char) : Bool := c.isDigit

/-- Whitespace stripped by Python `str.strip()` (ASCII forms). -/
def isPySpace (c : Char) : Bool :=
  c == ' ' || c == '\t' || c == '\n' || c == '\r' || c == '\x0b' || c == '\x0c'

/-- Python string strip on a character list. -/
def pyStrip (cs : List Char) : List Char :=
  ((cs.dropWhile isPySpace).reverse.dropWhile isPySpace).reverse

/-- Numeric value of a list of decimal digit characters. -/
def natOfDigits (l : List Char) : Nat :=
  l.foldl (fun a c => a * 10 + (c.toNat - '0'.toNat)) 0

/-- Exact value of a decimal literal: integer mantissa `mant` carrying
`fexp` fractional digits, scaled by the decimal exponent `e`. -/
def decValue (mant : Int) (fexp : Nat) (e : Int) : Rat :=
  if 0 ≤ e - (fexp : Int) then ((mant * 10 ^ (e - (fexp : Int)).toNat : Int) : Rat)
  else mkRat mant (10 ^ (((fexp : Int) - e).toNat))

/-- Model of Python `float(s)` on strings, as exact decimal rationals:
optional surrounding whitespace, optional sign, digits with an optional
fractional part, an optional exponent part. (`inf`, `nan` and digit
underscores are not modelled; no row in the claims involves them.)
`.error` marks the inputs on which Python raises `ValueError`. -/
def pyFloat (s : String) : Except String Rat :=
  let cs0 := pyStrip s.data
  let sgnCs : Int × List Char :=
    match cs0 with
    | '+' :: t => (1, t)
    | '-' :: t => (-1, t)
    | _ => (1, cs0)
  let ip := sgnCs.2.takeWhile isPyDigit
  let cs2 := sgnCs.2.dropWhile isPyDigit
  let fpCs : List Char × List Char :=
    match cs2 with
    | '.' :: t => (t.takeWhile isPyDigit, t.dropWhile isPyDigit)
    | _ => ([], cs2)
  if ip.isEmpty && fpCs.1.isEmpty then .error "could not convert string to float"
  else
    let mant : Int := sgnCs.1 * (natOfDigits (ip ++ fpCs.1) : Int)
    match fpCs.2 with
    | [] => .ok (decValue mant fpCs.1.length 0)
    | c :: t =>
      if c == 'e' || c == 'E' then
        let esCs : Int × List Char :=
          match t with
          | '+' :: u => (1, u)
          | '-' :: u => (-1, u)
          | _ => (1, t)
        let ed := esCs.2.takeWhile isPyDigit
        let rest := esCs.2.dropWhile isPyDigit
        if ed.isEmpty || !rest.isEmpty then .error "could not convert string to float"
        else .ok (decValue mant fpCs.1.length (esCs.1 * (natOfDigits ed : Int)))
      else .error "could not convert string to float"

/-! ### Scraper data model (`scrape_weather.py`) -/

/-- One row as produced by `csv.DictReader`, restricted to the four cells the
scraper reads through `row.get`; `none` models a key absent from the row
mapping (the CSV header lacks that column). -/
structure CsvRow where
  dateTime : Option String
  maxTemp : Option String
  minTemp : Option String
  meanTemp : Option String
deriving DecidableEq

/-- The per-date value stored in `self.daily_data`: the Max, Min and Mean
readings. -/
structure TempRec where
  maxT : Rat
  minT : Rat
  meanT : Rat
deriving DecidableEq

/-- The dict `self.daily_data`: key/value pairs in insertion order
with unique keys. -/
abbrev DailyData := List (String × TempRec)

/-- Python dict assignment `d[k] = v`: replaces the value in place when the
key exists (keeping its position), appends otherwise. -/
def dictInsert (d : DailyData) (k : String) (v : TempRec) : DailyData :=
  if d.any (fun p => p.1 == k) then d.map (fun p => if p.1 == k then (k, v) else p)
  else d ++ [(k, v)]

/-- Python `dict.update(e)`: assigns every key/value pair of `e` in order. -/
def dictUpdate (d : DailyData) (e : List (String × TempRec)) : DailyData :=
  e.foldl (fun acc p => dictInsert acc p.1 p.2) d

/-- Model of `float(row.get(key, 0))`: an absent key yields the default `0`, so
`float(0) = 0.0`; a present cell is parsed with Python float semantics. -/
def getOr0 (c : Option String) : Except String Rat :=
  match c with
  | none => .ok 0
  | some s => pyFloat s

/-- The row loop of `fetch_csv_for_month` (lines 113-121): a row with a falsy
`Date/Time` (absent key or empty string) or an empty `Max Temp (°C)` cell is
skipped via `continue`; otherwise the three cells are passed to `float`, and
a `ValueError` escapes the loop as an uncaught exception, modelled as
`.error` carrying the `self.daily_data` contents mutated so far. -/
def processRowsE : List CsvRow → DailyData → Except (String × DailyData) DailyData
  | [], d => .ok d
  | r :: rest, d =>
    match r.dateTime with
    | none => processRowsE rest d
    | some date =>
      if date = "" then processRowsE rest d
      else if r.maxTemp = some "" then processRowsE rest d
      else
        match getOr0 r.maxTemp with
        | .error e => .error (e, d)
        | .ok mx =>
          match getOr0 r.minTemp with
          | .error e => .error (e, d)
          | .ok mn =>
            match getOr0 r.meanTemp with
            | .error e => .error (e, d)
            | .ok me => processRowsE rest (dictInsert d date ⟨mx, mn, me⟩)

/-- The row loop together with the enclosing `try/except` of
`fetch_csv_for_month`: the `except` catches the `ValueError`, keeping the
rows stored before it and logging. -/
def processRows (rows : List CsvRow) (d : DailyData) : DailyData :=
  match processRowsE rows d with
  | .ok d2 => d2
  | .error e => e.2

/-- Outcome of `requests.get` on the HTML endpoint: either a raised
exception (connection failure, timeout) or a response carrying a status code
and body text. -/
inductive HtmlResp
  | netError
  | resp (status : Nat) (text : String)
deriving DecidableEq

/-- Method `DummyParser.handle_data`: intentionally does nothing, so `self.data`
never changes. -/
def handle_data (data : List (String × TempRec)) (_event : String) :
    List (String × TempRec) := data

/-- Model of `parser.feed(html_content)`: the `HTMLParser` tokenizer calls
`handle_data` once per text node; the token stream produced from the body is
abstracted as `events text`, which the theorems quantify over. `self.data`
starts as the empty dict built in `DummyParser.__init__`. -/
def parserFeed (events : String → List String) (text : String) :
    List (String × TempRec) :=
  (events text).foldl handle_data []

/-- Method `WeatherScraper._scrape_html_for_month` (lines 50-81): `None` on a
non-200 status or any raised exception, otherwise `parser.data`. -/
def scrape_html_for_month (events : String → List String) (r : HtmlResp) :
    Option (List (String × TempRec)) :=
  match r with
  | .netError => none
  | .resp status text => if status ≠ 200 then none else some (parserFeed events text)

/-- Outcome of `requests.get` plus `response.content.decode` on the CSV
endpoint: either a raised exception (connection failure, timeout, decode
error) or a response carrying a status code and the rows `csv.DictReader`
yields from its body. -/
inductive CsvResp
  | netError
  | resp (status : Nat) (rows : List CsvRow)

/-- Body of the `try` block of the CSV fallback in `fetch_csv_for_month`
(lines 101-121): a raised exception is an `.error` result carrying the
`self.daily_data` contents mutated so far; a non-200 status returns early
with nothing stored. -/
def fetchCsvBody (r : CsvResp) (d : DailyData) : Except (String × DailyData) DailyData :=
  match r with
  | .netError => .error ("requests exception", d)
  | .resp status rows => if status ≠ 200 then .ok d else processRowsE rows d

/-- Method `WeatherScraper.fetch_csv_for_month` (lines 86-123): attempts the HTML
path first; `if html_data:` is false for both `None` and the empty dict, so
a falsy result falls through to the CSV path, whose `except` catches every
exception and keeps whatever was stored. -/
def fetch_csv_for_month (events : String → List String) (hr : HtmlResp)
    (cr : CsvResp) (d : DailyData) : DailyData :=
  let h := (scrape_html_for_month events hr).getD []
  if h.isEmpty then
    match fetchCsvBody cr d with
    | .ok d2 => d2
    | .error e => e.2
  else dictUpdate d h

/-- Python `range(a, b, -1)` as a list: `a, a-1, …, b+1`. -/
def pyRangeDown (a b : Int) : List Int :=
  (List.range (a - b).toNat).map (fun i => a - (i : Int))

/-- The (year, month) submission order of `WeatherScraper.scrape_all`
(lines 140-143): `for year in range(self.end_year, self.start_year - 1, -1):
for month in range(12, 0, -1)`. -/
def scrapeOrder (start_year end_year : Int) : List (Int × Int) :=
  (pyRangeDown end_year (start_year - 1)).flatMap
    (fun y => (pyRangeDown 12 0).map (fun m => (y, m)))

/-- Folding `fetch_csv_for_month` over an explicit list of per-cell
responses, in submission order: the sequential elaboration of
the task loop of `scrape_all` (`DummyExecutor` runs each submitted task at once;
with threads the same calls all complete before `scrape_all` returns). -/
def scrapeCells (events : String → List String)
    (cells : List (HtmlResp × CsvResp)) (d : DailyData) : DailyData :=
  cells.foldl (fun acc hc => fetch_csv_for_month events hc.1 hc.2 acc) d

/-- Method `WeatherScraper.scrape_all` (lines 128-151) with the per-cell responses
supplied by the environment: visits every cell of `scrapeOrder` and returns
the final `self.daily_data`. -/
def scrape_all (events : String → List String)
    (resps : Int × Int → HtmlResp × CsvResp) (start_year end_year : Int) :
    DailyData :=
  scrapeCells events ((scrapeOrder start_year end_year).map resps) []

/-- A trivial token stream for concrete instantiations. -/
def noEvents : String → List String := fun _ => []

/-! ### Storage layer (`db_operations.py`, `dbcm.py`) -/

/-- One row of the `weather_data` table (the `id` column is a rowid and
plays no role in any claim). -/
structure DbRow where
  sample_date : String
  max_temp : Rat
  min_temp : Rat
  avg_temp : Rat
deriving DecidableEq

/-- The `weather_data` table: rows in insertion (rowid) order. The
`sample_date TEXT UNIQUE` constraint is enforced by `insertOrIgnore`. -/
abbrev WeatherTable := List DbRow

/-- Statement `INSERT OR IGNORE INTO weather_data` against the
`UNIQUE(sample_date)` constraint: a conflicting insert is silently skipped,
without an error. -/
def insertOrIgnore (t : WeatherTable) (r : DbRow) : WeatherTable :=
  if t.any (fun q => q.sample_date == r.sample_date) then t else t ++ [r]

/-- Failure injection for one `DBCM`-managed statement: the point, if any,
at which sqlite3 raises during the `with DBCM(...)` block. -/
inductive DbMode
  | ok
  | connectFail
  | executeFail
  | commitFail
deriving DecidableEq

/-- The `with DBCM(...)` body of `DBOperations.save_data` (lines 90-99),
before the enclosing `except`. sqlite3 semantics modelled: a failed
`connect` (`DBCM.__enter__`) opens nothing; a failed single-statement
`execute` applies nothing (statement-level atomicity, no partial row);
`DBCM.__exit__` commits whatever the statement applied — on an `execute`
exception that is nothing, and a failed `commit` makes nothing visible.
Hence every failing mode leaves the visible table unchanged, and each
raises, modelled as `.error`. -/
def save_dataE (m : DbMode) (t : WeatherTable) (date : String)
    (maxT minT meanT : Rat) : Except String WeatherTable :=
  match m with
  | .connectFail => .error "unable to open database file"
  | .executeFail => .error "execute failed"
  | .commitFail => .error "commit failed"
  | .ok => .ok (insertOrIgnore t ⟨date, maxT, minT, meanT⟩)

/-- Method `DBOperations.save_data` (lines 76-105): the `try/except Exception`
catches everything the body raises and only logs, so the caller always gets
back a table — the failed call leaves it as it was. -/
def save_data (m : DbMode) (t : WeatherTable) (date : String)
    (maxT minT meanT : Rat) : WeatherTable :=
  match save_dataE m t date maxT minT meanT with
  | .ok t2 => t2
  | .error _ => t

/-- SQLite `CAST(s AS INT)`: optional leading whitespace and sign, then the
longest digit prefix; 0 when there are no digits. -/
def sqliteCastInt (cs : List Char) : Int :=
  let cs1 := cs.dropWhile isPySpace
  match cs1 with
  | '-' :: t => -(natOfDigits (t.takeWhile isPyDigit) : Int)
  | '+' :: t => (natOfDigits (t.takeWhile isPyDigit) : Int)
  | _ => (natOfDigits (cs1.takeWhile isPyDigit) : Int)

/-- Model of `CAST(substr(sample_date, 1, 4) AS INT)`: the year portion of the
stored date key. -/
def yearOfDate (d : String) : Int := sqliteCastInt (d.data.take 4)

/-- The `ORDER BY sample_date ASC` relation: SQLite BINARY collation is
byte-wise comparison, i.e. lexicographic comparison of the characters for
the ASCII date strings involved. -/
def dateAsc (a b : DbRow) : Prop := a.sample_date.data ≤ b.sample_date.data

instance : DecidableRel dateAsc := fun a b =>
  inferInstanceAs (Decidable (a.sample_date.data ≤ b.sample_date.data))

instance : IsTotal DbRow dateAsc :=
  ⟨fun a b => le_total a.sample_date.data b.sample_date.data⟩

instance : IsTrans DbRow dateAsc :=
  ⟨fun _ _ _ h1 h2 => le_trans h1 h2⟩

/-- Decimal digits of a positive natural number, most significant first;
the first argument is recursion fuel (`n` itself suffices: the digit count
of `n` never exceeds `n`). -/
def natDigitsAux : Nat → Nat → List Char
  | 0, _ => []
  | fuel + 1, n =>
    if n = 0 then []
    else natDigitsAux fuel (n / 10) ++ [Char.ofNat ('0'.toNat + n % 10)]

/-- Decimal representation of a natural number. -/
def natDigits (n : Nat) : List Char :=
  if n = 0 then ['0'] else natDigitsAux n n

/-- Decimal representation of an integer, as Python `str` renders it. -/
def intRepr (i : Int) : List Char :=
  if i < 0 then '-' :: natDigits i.natAbs else natDigits i.natAbs

/-- Python `f"{year}-{month:02}"`: the fixed prefix of the LIKE pattern of
the month queries; `{:02}` zero-pads a single-character rendering to two. -/
def monthPattern (year month : Int) : List Char :=
  let m := intRepr month
  intRepr year ++ ['-'] ++ (if m.length = 1 then '0' :: m else m)

/-- Prefix test: a LIKE pattern ending in the percent wildcard, for patterns
free of LIKE metacharacters
(the date patterns here hold only digits and dashes, so the
ASCII-case-insensitivity of LIKE is vacuous). -/
def startsWith : List Char → List Char → Bool
  | [], _ => true
  | _ :: _, [] => false
  | p :: ps, c :: cs => p == c && startsWith ps cs

/-- Method `DBOperations.fetch_mean_temps_range` (lines 160-186): rows whose
`CAST(substr(sample_date, 1, 4) AS INT)` lies between the bounds, ordered by
`sample_date ASC`, projected to `(sample_date, avg_temp)`; any sqlite
failure is caught and an empty list returned. -/
def fetch_mean_temps_range (m : DbMode) (t : WeatherTable)
    (year_start year_end : Int) : List (String × Rat) :=
  match m with
  | .ok =>
    ((t.filter (fun r =>
        decide (year_start ≤ yearOfDate r.sample_date) &&
        decide (yearOfDate r.sample_date ≤ year_end))).insertionSort dateAsc).map
      (fun r => (r.sample_date, r.avg_temp))
  | _ => []

/-- Method `DBOperations.fetch_mean_temps_for_month` (lines 190-217): rows whose
`sample_date` matches `LIKE f"{year}-{month:02}%"`, ordered by
`sample_date ASC`, projected to `(sample_date, avg_temp)`; any sqlite
failure is caught and an empty list returned. -/
def fetch_mean_temps_for_month (m : DbMode) (t : WeatherTable)
    (year month : Int) : List (String × Rat) :=
  match m with
  | .ok =>
    ((t.filter (fun r =>
        startsWith (monthPattern year month) r.sample_date.data)).insertionSort
      dateAsc).map (fun r => (r.sample_date, r.avg_temp))
  | _ => []

/-! ### Derived notions used by the statements -/

/-- The CSV fallback section of `fetch_csv_for_month` (lines 99-123) on its
own: the `try` body with its `except` catching everything. -/
def csvFallback (cr : CsvResp) (d : DailyData) : DailyData :=
  match fetchCsvBody cr d with
  | .ok d2 => d2
  | .error e => e.2

/-- Number of table rows carrying the date `d`. -/
def countDate (t : WeatherTable) (d : String) : Nat :=
  t.countP (fun r => r.sample_date == d)

/-- The `UNIQUE(sample_date)` invariant of the `weather_data` table. -/
def UniqueDates (t : WeatherTable) : Prop :=
  t.Pairwise (fun a b => a.sample_date ≠ b.sample_date)

/-- The traversal order as the spec words it: years from `end_year` down to
`start_year` inclusive, descending, and within each year months 12 down
to 1, descending. -/
def specTraversalOrder (start_year end_year : Int) : List (Int × Int) :=
  ((List.range (end_year - start_year + 1).toNat).map
      (fun i => end_year - (i : Int))).flatMap
    (fun y => ((List.range 12).map (fun j => (12 : Int) - (j : Int))).map
      (fun m => (y, m)))

/-- A transient fetch failure on a (year, month) cell: network/connection
error, non-success HTTP status, or a body yielding zero rows. -/
def transientFail (cr : CsvResp) : Prop :=
  cr = .netError ∨
    (∃ status rows, cr = .resp status rows ∧ status ≠ 200) ∨
    (∃ status, cr = .resp status [])

/-- A row the scraper stores: a present nonempty `Date/Time`, a
`Max Temp (°C)` cell that is not the empty string, and all three
temperature lookups succeed under `float`. -/
def rowValid (r : CsvRow) : Bool :=
  match r.dateTime with
  | none => false
  | some d =>
    !(d == "") && !(r.maxTemp == some "") && (getOr0 r.maxTemp).isOk &&
      (getOr0 r.minTemp).isOk && (getOr0 r.meanTemp).isOk

/-- The date the scraper keys a row by: its explicit `Date/Time` cell. -/
def rowDate (r : CsvRow) : String := r.dateTime.getD ""

/-- Value of a successful parse, defaulting to 0 (never consulted for a
valid row). -/
def okOr0 (x : Except String Rat) : Rat :=
  match x with
  | .ok v => v
  | .error _ => 0

/-- The dict entry the scraper stores for a valid row. -/
def interpRow (r : CsvRow) : String × TempRec :=
  (rowDate r, ⟨okOr0 (getOr0 r.maxTemp), okOr0 (getOr0 r.minTemp),
    okOr0 (getOr0 r.meanTemp)⟩)

/-- A fully populated row: explicit date and one repeated numeric cell. -/
def cexRow (d : String) (v : String) : CsvRow := ⟨some d, some v, some v, some v⟩

/-- The store obtained by saving the three example records of the claim, in
a scrambled insertion order so that the query-time ordering is visible. -/
def exampleTable : WeatherTable :=
  save_data .ok
    (save_data .ok (save_data .ok [] "2023-06-01" 4 0 2) "2024-01-01" 5 1 3)
    "2023-01-15" 6 2 1

/-! ### Helper lemmas -/

theorem parserFeed_eq_nil (events : String → List String) (text : String) :
    parserFeed events text = [] := by
  show (events text).foldl handle_data [] = []
  generalize events text = l
  induction l with
  | nil => rfl
  | cons a l ih => simpa [List.foldl, handle_data] using ih

theorem fetch_eq_csvFallback (events : String → List String) (hr : HtmlResp)
    (cr : CsvResp) (d : DailyData) :
    fetch_csv_for_month events hr cr d = csvFallback cr d := by
  unfold fetch_csv_for_month csvFallback
  cases hr with
  | netError => rfl
  | resp status text =>
    unfold scrape_html_for_month
    by_cases h : status ≠ 200
    · simp [h]
    · simp [h, parserFeed_eq_nil]

/-! ### C3 -/

/-- C3: for every response and token stream, `_scrape_html_for_month`
returns `None` or the empty mapping — its dummy parser accumulates no
data — and consequently `fetch_csv_for_month` always produces exactly the
result of the CSV fallback: no record ever comes from HTML extraction. -/
theorem c3_theorem (events : String → List String) (hr : HtmlResp) :
    (scrape_html_for_month events hr = none ∨
      scrape_html_for_month events hr = some []) ∧
    ∀ (cr : CsvResp) (d : DailyData),
      fetch_csv_for_month events hr cr d = csvFallback cr d := by
  constructor
  · cases hr with
    | netError => exact Or.inl rfl
    | resp status text =>
      by_cases h : status ≠ 200
      · exact Or.inl (by simp [scrape_html_for_month, h])
      · exact Or.inr (by simp [scrape_html_for_month, h, parserFeed_eq_nil])
  · intro cr d
    exact fetch_eq_csvFallback events hr cr d

/-! ### C7 -/

/-- C7: a transient fetch failure — network/connection error, non-success
HTTP status, or a body yielding zero rows — produces an empty result for
that cell without raising (the store is returned unchanged), and the
overall scrape proceeds over the remaining cells exactly as if the failing
cell were absent. -/
theorem c7_theorem (events : String → List String) (hr : HtmlResp)
    (cr : CsvResp) (d : DailyData) (h : transientFail cr) :
    fetch_csv_for_month events hr cr d = d ∧
    ∀ rest, scrapeCells events ((hr, cr) :: rest) d = scrapeCells events rest d := by
  have hbase : fetch_csv_for_month events hr cr d = d := by
    rw [fetch_eq_csvFallback]
    rcases h with h | ⟨status, rows, rfl, hst⟩ | ⟨status, rfl⟩
    · subst h; rfl
    · simp [csvFallback, fetchCsvBody, hst]
    · by_cases hst : status ≠ 200
      · simp [csvFallback, fetchCsvBody, hst]
      · simp [csvFallback, fetchCsvBody, hst, processRowsE]
  refine ⟨hbase, fun rest => ?_⟩
  simp [scrapeCells, List.foldl_cons, hbase]

/-- C7 witness: a concrete connection failure on one cell. -/
theorem c7_witness :
    fetch_csv_for_month noEvents .netError .netError [] = [] ∧
    scrapeCells noEvents [(.netError, .netError)] [] = scrapeCells noEvents [] [] := by
  have h := c7_theorem noEvents .netError .netError [] (Or.inl rfl)
  exact ⟨h.1, h.2 []⟩

/-! ### C8 -/

/-- C8: for every window with `start_year ≤ end_year`, the scrape visits
(year, month) cells in exactly the order the spec states — years from `end_year`
down to `start_year`, months 12 down to 1 — and for the window 2020-2022
the visited sequence is the explicit 36-cell sequence of the claim. -/
theorem c8_theorem (start_year end_year : Int) (h : start_year ≤ end_year) :
    scrapeOrder start_year end_year = specTraversalOrder start_year end_year ∧
    scrapeOrder 2020 2022 =
      [(2022, 12), (2022, 11), (2022, 10), (2022, 9), (2022, 8), (2022, 7),
       (2022, 6), (2022, 5), (2022, 4), (2022, 3), (2022, 2), (2022, 1),
       (2021, 12), (2021, 11), (2021, 10), (2021, 9), (2021, 8), (2021, 7),
       (2021, 6), (2021, 5), (2021, 4), (2021, 3), (2021, 2), (2021, 1),
       (2020, 12), (2020, 11), (2020, 10), (2020, 9), (2020, 8), (2020, 7),
       (2020, 6), (2020, 5), (2020, 4), (2020, 3), (2020, 2), (2020, 1)] := by
  refine ⟨?_, by decide⟩
  unfold scrapeOrder specTraversalOrder pyRangeDown
  have he : end_year - (start_year - 1) = end_year - start_year + 1 := by ring
  rw [he]
  norm_num
  rfl

/-- C8 witness: the window 2020-2022. -/
theorem c8_witness :
    scrapeOrder 2020 2022 = specTraversalOrder 2020 2022 := by
  exact (c8_theorem 2020 2022 (by decide)).1

/-! ### C10 -/

/-- C10: `save_data` never propagates an exception — every failing mode is
caught, leaving the stored table unchanged (the failed save applies no
partial row) — and the only other possible outcome is the successful
`INSERT OR IGNORE` result. -/
theorem c10_theorem (m : DbMode) (t : WeatherTable) (d : String)
    (mx mn me : Rat) :
    (∀ e, save_dataE m t d mx mn me = .error e → save_data m t d mx mn me = t) ∧
    (m ≠ .ok → save_data m t d mx mn me = t) ∧
    (save_data m t d mx mn me = t ∨
      save_dataE m t d mx mn me = .ok (save_data m t d mx mn me)) := by
  cases m <;> simp [save_data, save_dataE]

/-- C10 witness: a concrete failed statement leaves the empty table empty. -/
theorem c10_witness : save_data .executeFail [] "2024-01-01" 1 2 3 = [] := by
  exact (c10_theorem .executeFail [] "2024-01-01" 1 2 3).2.1 (by decide)

/-! ### C4 and C5 -/

theorem countDate_le_one (t : WeatherTable) (d : String) (h : UniqueDates t) :
    countDate t d ≤ 1 := by
  induction t with
  | nil => simp [countDate]
  | cons a t ih =>
    rcases List.pairwise_cons.1 h with ⟨ha, ht⟩
    by_cases hd : a.sample_date = d
    · have hz : countDate t d = 0 := by
        apply List.countP_eq_zero.2
        intro q hq
        simp only [beq_iff_eq]
        intro he
        exact ha q hq (hd.trans he.symm)
      have hstep : countDate (a :: t) d = countDate t d + 1 := by
        simp [countDate, List.countP_cons, hd]
      rw [hstep, hz]
    · have hstep : countDate (a :: t) d = countDate t d := by
        simp [countDate, List.countP_cons, hd]
      rw [hstep]
      exact ih ht

theorem insertOrIgnore_present (t : WeatherTable) (r : DbRow)
    (h : ∃ q ∈ t, q.sample_date = r.sample_date) : insertOrIgnore t r = t := by
  unfold insertOrIgnore
  have : t.any (fun q => q.sample_date == r.sample_date) = true := by
    obtain ⟨q, hq, hqd⟩ := h
    exact List.any_eq_true.2 ⟨q, hq, by simp [hqd]⟩
  simp [this]

theorem insertOrIgnore_absent (t : WeatherTable) (r : DbRow)
    (h : ∀ q ∈ t, q.sample_date ≠ r.sample_date) :
    insertOrIgnore t r = t ++ [r] := by
  unfold insertOrIgnore
  have : t.any (fun q => q.sample_date == r.sample_date) = false := by
    simp only [List.any_eq_false]
    intro q hq
    simp [h q hq]
  simp [this]

/-- C4: saving the identical record twice leaves exactly one row for that
date — the second `INSERT OR IGNORE` hits the `UNIQUE(sample_date)`
constraint and is ignored — and neither call raises. -/
theorem c4_theorem (t : WeatherTable) (d : String) (mx mn me : Rat)
    (h : UniqueDates t) :
    countDate (save_data .ok (save_data .ok t d mx mn me) d mx mn me) d = 1 ∧
    (save_dataE .ok t d mx mn me).isOk = true ∧
    (save_dataE .ok (save_data .ok t d mx mn me) d mx mn me).isOk = true := by
  refine ⟨?_, rfl, rfl⟩
  show countDate
    (insertOrIgnore (insertOrIgnore t ⟨d, mx, mn, me⟩) ⟨d, mx, mn, me⟩) d = 1
  by_cases hp : ∃ q ∈ t, q.sample_date = d
  · rw [insertOrIgnore_present t _ hp, insertOrIgnore_present t _ hp]
    have h1 : 0 < countDate t d := by
      apply List.countP_pos_iff.2
      obtain ⟨q, hq, hqd⟩ := hp
      exact ⟨q, hq, by simp [hqd]⟩
    have h2 := countDate_le_one t d h
    omega
  · push_neg at hp
    rw [insertOrIgnore_absent t _ hp]
    have hmem : ∃ q ∈ t ++ [(⟨d, mx, mn, me⟩ : DbRow)], q.sample_date = d :=
      ⟨⟨d, mx, mn, me⟩, by simp, rfl⟩
    rw [insertOrIgnore_present _ _ hmem]
    have hz : countDate t d = 0 := by
      apply List.countP_eq_zero.2
      intro q hq
      simp [hp q hq]
    have hstep : countDate (t ++ [(⟨d, mx, mn, me⟩ : DbRow)]) d =
        countDate t d + 1 := by
      simp [countDate, List.countP_append]
    rw [hstep, hz]

/-- C4 witness: the empty table and one concrete record. -/
theorem c4_witness :
    UniqueDates ([] : WeatherTable) ∧
    countDate (save_data .ok (save_data .ok [] "2024-01-01" 1 2 3)
      "2024-01-01" 1 2 3) "2024-01-01" = 1 := by
  exact ⟨List.Pairwise.nil, (c4_theorem [] "2024-01-01" 1 2 3 List.Pairwise.nil).1⟩

/-- C5: first-write-wins — saving a record for a date already present, with
different temperature values, leaves the stored table unchanged. -/
theorem c5_theorem (t : WeatherTable) (q : DbRow) (d : String) (mx mn me : Rat)
    (hq : q ∈ t) (hd : q.sample_date = d)
    (hdiff : (q.max_temp, q.min_temp, q.avg_temp) ≠ (mx, mn, me)) :
    save_data .ok t d mx mn me = t := by
  show insertOrIgnore t ⟨d, mx, mn, me⟩ = t
  exact insertOrIgnore_present t _ ⟨q, hq, hd⟩

/-- C5 witness: overwriting an existing date with different values changes
nothing. -/
theorem c5_witness :
    ((⟨"2024-01-01", 1, 2, 3⟩ : DbRow) ∈
      ([⟨"2024-01-01", 1, 2, 3⟩] : WeatherTable)) ∧
    save_data .ok [⟨"2024-01-01", 1, 2, 3⟩] "2024-01-01" 7 8 9 =
      [⟨"2024-01-01", 1, 2, 3⟩] := by
  have hm : (⟨"2024-01-01", 1, 2, 3⟩ : DbRow) ∈
      ([⟨"2024-01-01", 1, 2, 3⟩] : WeatherTable) := by decide
  exact ⟨hm, c5_theorem [⟨"2024-01-01", 1, 2, 3⟩] ⟨"2024-01-01", 1, 2, 3⟩
    "2024-01-01" 7 8 9 hm rfl (by decide)⟩

/-! ### C9 -/

theorem sortProj_perm (l : List DbRow) :
    ((l.insertionSort dateAsc).map (fun r => (r.sample_date, r.avg_temp))).Perm
      (l.map (fun r => (r.sample_date, r.avg_temp))) :=
  (List.perm_insertionSort dateAsc l).map _

theorem sortProj_sorted (l : List DbRow) :
    ((l.insertionSort dateAsc).map
        (fun r => (r.sample_date, r.avg_temp))).Sorted
      (fun a b => a.1.data ≤ b.1.data) :=
  List.Pairwise.map _ (fun _ _ h => h) (List.sorted_insertionSort dateAsc l)

/-- C9: for every stored table, `fetch_mean_temps_range` returns exactly
the rows whose stored year lies within the inclusive bounds, in ascending
date order, and `fetch_mean_temps_for_month` exactly the rows matching the
`year-month` prefix, ascending; after saving `2023-06-01`, `2024-01-01`,
`2023-01-15` (in that order), the range query for 2023 returns exactly the
two 2023 records ascending and the month query for 2023-06 exactly one. -/
theorem c9_theorem :
    (∀ (t : WeatherTable) (ys ye : Int),
      (fetch_mean_temps_range .ok t ys ye).Perm
        ((t.filter (fun r => decide (ys ≤ yearOfDate r.sample_date) &&
          decide (yearOfDate r.sample_date ≤ ye))).map
          (fun r => (r.sample_date, r.avg_temp))) ∧
      (fetch_mean_temps_range .ok t ys ye).Sorted
        (fun a b => a.1.data ≤ b.1.data)) ∧
    (∀ (t : WeatherTable) (y m : Int),
      (fetch_mean_temps_for_month .ok t y m).Perm
        ((t.filter
          (fun r => startsWith (monthPattern y m) r.sample_date.data)).map
          (fun r => (r.sample_date, r.avg_temp))) ∧
      (fetch_mean_temps_for_month .ok t y m).Sorted
        (fun a b => a.1.data ≤ b.1.data)) ∧
    fetch_mean_temps_range .ok exampleTable 2023 2023 =
      [("2023-01-15", 1), ("2023-06-01", 2)] ∧
    fetch_mean_temps_for_month .ok exampleTable 2023 6 =
      [("2023-06-01", 2)] := by
  refine ⟨fun t ys ye => ⟨sortProj_perm _, sortProj_sorted _⟩,
    fun t y m => ⟨sortProj_perm _, sortProj_sorted _⟩, by decide, by decide⟩

/-! ### C1 -/

theorem dictInsert_absent (d : DailyData) (k : String) (v : TempRec)
    (h : ∀ p ∈ d, p.1 ≠ k) : dictInsert d k v = d ++ [(k, v)] := by
  unfold dictInsert
  have hfa : d.any (fun p => p.1 == k) = false := by
    simp only [List.any_eq_false]
    intro p hp
    simp [h p hp]
  simp [hfa]

theorem exists_ok_of_isOk {x : Except String Rat} (h : x.isOk = true) :
    ∃ v, x = .ok v := by
  cases x with
  | ok v => exact ⟨v, rfl⟩
  | error e => simp [Except.isOk, Except.toBool] at h

theorem processRowsE_cons_valid (r : CsvRow) (rest : List CsvRow)
    (d : DailyData) (hv : rowValid r = true) :
    processRowsE (r :: rest) d =
      processRowsE rest (dictInsert d (rowDate r) (interpRow r).2) := by
  match hr : r.dateTime with
  | none => rw [rowValid, hr] at hv; exact absurd hv (by simp)
  | some date =>
    rw [rowValid, hr] at hv
    simp only [Bool.and_eq_true, Bool.not_eq_true', beq_eq_false_iff_ne,
      ne_eq] at hv
    obtain ⟨⟨⟨⟨hdate, hmaxne⟩, hmaxok⟩, hminok⟩, hmeanok⟩ := hv
    obtain ⟨mx, hmx⟩ := exists_ok_of_isOk hmaxok
    obtain ⟨mn, hmn⟩ := exists_ok_of_isOk hminok
    obtain ⟨me, hme⟩ := exists_ok_of_isOk hmeanok
    have hkey : rowDate r = date := by simp [rowDate, hr]
    have hval : (interpRow r).2 = ⟨mx, mn, me⟩ := by
      simp [interpRow, hmx, hmn, hme, okOr0]
    rw [hkey, hval]
    simp only [processRowsE, hr, hdate, if_false, hmx, hmn, hme]
    simp [hdate, hmaxne]

theorem processRowsE_all_valid (rows : List CsvRow) (d : DailyData)
    (hv : ∀ r ∈ rows, rowValid r = true)
    (hnd : (rows.map rowDate).Nodup)
    (hdisj : ∀ r ∈ rows, ∀ p ∈ d, p.1 ≠ rowDate r) :
    processRowsE rows d = .ok (d ++ rows.map interpRow) := by
  induction rows generalizing d with
  | nil => simp [processRowsE]
  | cons r rest ih =>
    rw [processRowsE_cons_valid r rest d (hv r (by simp))]
    rw [dictInsert_absent d _ _ (fun p hp => hdisj r (by simp) p hp)]
    have hnd1 : (rowDate r :: rest.map rowDate).Nodup := by
      simpa only [List.map_cons] using hnd
    have hnd0 := List.nodup_cons.1 hnd1
    have hdisj2 : ∀ q ∈ rest, ∀ p ∈ d ++ [(rowDate r, (interpRow r).2)],
        p.1 ≠ rowDate q := by
      intro q hq p hp
      rcases List.mem_append.1 hp with hp | hp
      · exact hdisj q (by simp [hq]) p hp
      · have hp1 : p.1 = rowDate r := by
          simp only [List.mem_singleton] at hp
          rw [hp]
        rw [hp1]
        intro he
        exact hnd0.1 (he ▸ List.mem_map_of_mem rowDate hq)
    rw [ih (d ++ [(rowDate r, (interpRow r).2)])
      (fun q hq => hv q (by simp [hq])) hnd0.2 hdisj2]
    have heta : (rowDate r, (interpRow r).2) = interpRow r := rfl
    rw [heta]
    simp [List.append_assoc]

/-- C1 amended: the coordinator reads the date of each record from the
explicit `Date/Time` cell and keys the record by it — day numbers are not
synthesized from the row position: for parseable rows with pairwise
distinct dates, none already stored, the result appends exactly the
`(Date/Time, temperatures)` entries in received order, so three valid rows
for 2024-01 whose `Date/Time` cells are `2024-01-01`, `2024-01-02`,
`2024-01-03` yield those dates in that order. -/
theorem c1_theorem (rows : List CsvRow) (d : DailyData)
    (hv : ∀ r ∈ rows, rowValid r = true)
    (hnd : (rows.map rowDate).Nodup)
    (hdisj : ∀ r ∈ rows, ∀ p ∈ d, p.1 ≠ rowDate r) :
    processRows rows d = d ++ rows.map interpRow := by
  unfold processRows
  rw [processRowsE_all_valid rows d hv hnd hdisj]

/-- C1 witness: the three rows dated `2024-01-01` to `2024-01-03`. -/
theorem c1_witness :
    (∀ r ∈ [cexRow "2024-01-01" "1.0", cexRow "2024-01-02" "2.0",
      cexRow "2024-01-03" "3.0"], rowValid r = true) ∧
    processRows [cexRow "2024-01-01" "1.0", cexRow "2024-01-02" "2.0",
        cexRow "2024-01-03" "3.0"] [] =
      [("2024-01-01", ⟨1, 1, 1⟩), ("2024-01-02", ⟨2, 2, 2⟩),
        ("2024-01-03", ⟨3, 3, 3⟩)] := by
  refine ⟨by decide, ?_⟩
  rw [c1_theorem [cexRow "2024-01-01" "1.0", cexRow "2024-01-02" "2.0",
    cexRow "2024-01-03" "3.0"] [] (by decide) (by decide) (by decide)]
  decide

/-- C1 counterexample: three valid rows for year 2024, month 1, whose
`Date/Time` cells are the 7th, 8th and 9th; the resulting record dates are
those cells, not the sequentially assigned `2024-01-01`, `2024-01-02`,
`2024-01-03` the claim predicts. -/
theorem c1_counterexample :
    (processRows [cexRow "2024-01-07" "1.0", cexRow "2024-01-08" "2.0",
      cexRow "2024-01-09" "3.0"] []).map Prod.fst =
      ["2024-01-07", "2024-01-08", "2024-01-09"] ∧
    (processRows [cexRow "2024-01-07" "1.0", cexRow "2024-01-08" "2.0",
      cexRow "2024-01-09" "3.0"] []).map Prod.fst ≠
      ["2024-01-01", "2024-01-02", "2024-01-03"] := by
  decide

/-! ### C2 -/

/-- C2 amended: only a row with a falsy `Date/Time` or an empty
`Max Temp (°C)` cell is discarded at row granularity with processing
continuing; a guard-passing row with a temperature cell that fails to parse
as a decimal raises `ValueError`, which aborts processing of all remaining
rows of that month response — rows stored before it are kept, later valid
rows yield no record. -/
theorem c2_theorem (r : CsvRow) (rest : List CsvRow) (d : DailyData) :
    (r.dateTime = none ∨ r.dateTime = some "" ∨ r.maxTemp = some "" →
      processRowsE (r :: rest) d = processRowsE rest d) ∧
    (∀ date, r.dateTime = some date → date ≠ "" → r.maxTemp ≠ some "" →
      ¬((getOr0 r.maxTemp).isOk = true ∧ (getOr0 r.minTemp).isOk = true ∧
        (getOr0 r.meanTemp).isOk = true) →
      processRows (r :: rest) d = d) := by
  constructor
  · intro h
    rcases h with h | h | h
    · simp [processRowsE, h]
    · simp [processRowsE, h]
    · match hr : r.dateTime with
      | none => simp [processRowsE, hr]
      | some date =>
        by_cases hd : date = ""
        · simp [processRowsE, hr, hd]
        · simp [processRowsE, hr, hd, h]
  · intro date hr hd hmax hfail
    unfold processRows
    simp only [processRowsE, hr, hd, if_false, hmax]
    match hmx : getOr0 r.maxTemp with
    | .error e => simp [hd, hmax]
    | .ok mx =>
      match hmn : getOr0 r.minTemp with
      | .error e => simp [hd, hmax]
      | .ok mn =>
        match hme : getOr0 r.meanTemp with
        | .error e => simp [hd, hmax]
        | .ok me =>
          exact absurd ⟨by simp [hmx, Except.isOk, Except.toBool],
            by simp [hmn, Except.isOk, Except.toBool],
            by simp [hme, Except.isOk, Except.toBool]⟩ hfail

/-- C2 witness: a guard-passing row with the non-numeric Max cell `abc`
aborts the month, leaving the store as it was. -/
theorem c2_witness :
    ((cexRow "2024-01-02" "abc").dateTime = some "2024-01-02" ∧
      ¬((getOr0 (cexRow "2024-01-02" "abc").maxTemp).isOk = true ∧
        (getOr0 (cexRow "2024-01-02" "abc").minTemp).isOk = true ∧
        (getOr0 (cexRow "2024-01-02" "abc").meanTemp).isOk = true)) ∧
    processRows [cexRow "2024-01-02" "abc", cexRow "2024-01-03" "3.0"]
      [("2024-01-01", ⟨1, 1, 1⟩)] = [("2024-01-01", ⟨1, 1, 1⟩)] :=
  ⟨⟨rfl, by decide⟩,
    (c2_theorem (cexRow "2024-01-02" "abc") [cexRow "2024-01-03" "3.0"]
      [("2024-01-01", ⟨1, 1, 1⟩)]).2 "2024-01-02" rfl (by decide) (by decide)
      (by decide)⟩

/-- C2 counterexample: with rows dated the 1st (valid), 2nd (non-numeric
Max cell) and 3rd (valid), only the 1st yields a record: the valid 3rd row
of the same response is lost, so the bad row is not discarded at row
granularity. -/
theorem c2_counterexample :
    processRows [cexRow "2024-01-01" "1.0", cexRow "2024-01-02" "abc",
      cexRow "2024-01-03" "3.0"] [] = [("2024-01-01", ⟨1, 1, 1⟩)] ∧
    rowValid (cexRow "2024-01-03" "3.0") = true ∧
    "2024-01-03" ∉ (processRows [cexRow "2024-01-01" "1.0",
      cexRow "2024-01-02" "abc", cexRow "2024-01-03" "3.0"] []).map
      Prod.fst := by
  decide

/-! ### C6 -/

/-- C6 amended: a Max reading that is present but empty causes the whole
row to be skipped, so nothing is stored for it; but a temperature reading
whose key is absent from the row mapping altogether is coerced to the value
0 in the produced record, via the `row.get(key, 0)` default. -/
theorem c6_theorem (r : CsvRow) (rest : List CsvRow) (d : DailyData)
    (date : String) :
    (r.maxTemp = some "" → processRowsE (r :: rest) d = processRowsE rest d) ∧
    (date ≠ "" →
      processRowsE ((⟨some date, none, none, none⟩ : CsvRow) :: rest) d =
        processRowsE rest (dictInsert d date ⟨0, 0, 0⟩)) := by
  constructor
  · intro h
    match hr : r.dateTime with
    | none => simp [processRowsE, hr]
    | some dd =>
      by_cases hd : dd = ""
      · simp [processRowsE, hr, hd]
      · simp [processRowsE, hr, hd, h]
  · intro hd
    simp [processRowsE, hd, getOr0]

/-- C6 witness: an empty-Max row stores nothing; a row with all three
temperature keys absent stores the record `(0, 0, 0)`. -/
theorem c6_witness :
    processRowsE [(⟨some "x", some "", some "1", some "1"⟩ : CsvRow)] [] =
      processRowsE [] [] ∧
    processRowsE [(⟨some "2024-01-01", none, none, none⟩ : CsvRow)] [] =
      processRowsE [] (dictInsert [] "2024-01-01" ⟨0, 0, 0⟩) :=
  ⟨(c6_theorem ⟨some "x", some "", some "1", some "1"⟩ [] [] "z").1 rfl,
    (c6_theorem ⟨some "x", some "", some "1", some "1"⟩ [] []
      "2024-01-01").2 (by decide)⟩

/-- C6 counterexample: a row whose three temperature keys are absent from
the row mapping passes the guard (in Python, None compared to the empty
string is unequal, not falsy-skipped) and every
absent reading is stored as `float(0) = 0.0` — the value zero. -/
theorem c6_counterexample :
    (⟨some "2024-01-01", none, none, none⟩ : CsvRow).maxTemp = none ∧
    processRows [⟨some "2024-01-01", none, none, none⟩] [] =
      [("2024-01-01", ⟨0, 0, 0⟩)] := by
  decide

end WeatherApp
